import Mathlib

/-!
CreatixBackend, `models/session.go`.

A shallow embedding of the credential core of `models/session.go`:
`createUserQuery`, `UserSession.CreateUser`, `findUserByEmail` and
`UserSession.LoginUser`, followed by the properties established about them.

Conventions of the embedding

* A Go `error` value is an `Option GoError` (`none` is `nil`).
* A Go function returning `(T, error)` returns a pair `T × Option GoError`.
* The relational store is a value of type `DB`; a statement is a function on it.
* Collaborators that live outside the file (`bcrypt.CompareHashAndPassword`,
  `utils.NewToken`, the clock, the outcomes of the store driver) are parameters.
* The pointer receiver of `LoginUser` becomes a returned `UserSession`.
-/

namespace Creatix

/-! ## Errors -/

/-- Go `error` values that occur in `session.go`.  The three sentinels are the
package-level variables of `database/sql` and `golang.org/x/crypto/bcrypt`;
`errorsNew msg` is the value of `errors.New(msg)`; `external msg` is any other
error produced by a collaborator. -/
inductive GoError where
  | sqlErrNoRows
  | sqlErrTxDone
  | bcryptErrMismatchedHashAndPassword
  | bcryptErrHashTooShort
  | errorsNew (msg : String)
  | external (msg : String)
  deriving DecidableEq, Repr

/-- The `Error()` string of an error value. -/
def GoError.Error : GoError → String
  | .sqlErrNoRows => "sql: no rows in result set"
  | .sqlErrTxDone => "sql: transaction has already been committed or rolled back"
  | .bcryptErrMismatchedHashAndPassword =>
      "crypto/bcrypt: hashedPassword is not the hash of the given password"
  | .bcryptErrHashTooShort =>
      "crypto/bcrypt: hashedSecret too short to be a bcrypted password"
  | .errorsNew msg => msg
  | .external msg => msg

/-! ## Time -/

/-- Go `time.Duration`: a count of nanoseconds. -/
abbrev Duration := Int

/-- Go `time.Minute`. -/
def Minute : Duration := 60 * 1000000000

/-- Location attached to a `Time`. -/
inductive Location where
  | UTC
  | Local
  deriving DecidableEq, Repr

/-- Go `time.Time`: an instant (nanoseconds since the zero time) and a location.
Instants are unbounded integers; a clock reading is far from the bounds of the
64-bit second counter of the Go representation, so `Add` does not wrap here. -/
structure Time where
  nanos : Int
  loc : Location
  deriving DecidableEq, Repr

/-- The zero value `time.Time{}`. -/
def Time.zero : Time := { nanos := 0, loc := .UTC }

/-- Go `Time.Local`: same instant, location set to local time. -/
def Time.Local (t : Time) : Time := { t with loc := .Local }

/-- Go `Time.Add`. -/
def Time.Add (t : Time) (d : Duration) : Time := { t with nanos := t.nanos + d }

/-! ## Data model -/

/-- Go `User`. -/
structure User where
  ID : String
  Firstname : String
  Lastname : String
  Email : String
  Password : String
  deriving DecidableEq, Repr

/-- The zero value of `User` (`var user User`). -/
def User.zero : User :=
  { ID := "", Firstname := "", Lastname := "", Email := "", Password := "" }

/-- Modelled from the spec: the Go type `Company` is declared in another file of
package `models`; `session.go` only reads its promoted field `Name`
(`signup.Name`), the company name of the data model. -/
structure Company where
  Name : String
  deriving DecidableEq, Repr

/-- Go `Signup`, which embeds `User` and `Company`. -/
structure Signup where
  User : User
  Company : Company
  deriving DecidableEq, Repr

/-- Go `UserSession`. -/
structure UserSession where
  ID : String
  JwtSecret : String
  deriving DecidableEq, Repr

/-- Go `Response`, which embeds `User`. -/
structure Response where
  Status : Bool
  Message : String
  Token : String
  ExpiresAt : Time
  User : User
  deriving DecidableEq, Repr

/-- The zero value of `Response` (`var resp Response`). -/
def Response.zero : Response :=
  { Status := false, Message := "", Token := "", ExpiresAt := Time.zero, User := User.zero }

/-- Go `cookieExpireTime`. -/
def cookieExpireTime : Duration := 30 * Minute

/-! ## The relational store -/

/-- Modelled from the spec: a row of table `company(id, name)`; the schema is
not part of `session.go`, the statement names the columns `Id` and `Name`. -/
structure CompanyRow where
  Id : String
  Name : String
  deriving DecidableEq, Repr

/-- Modelled from the spec: a row of table `user_company(company_id, user_id)`;
the statement names the columns `CompanyId` and `UserId`.  `none` is SQL `NULL`. -/
structure UserCompanyRow where
  CompanyId : Option String
  UserId : Option String
  deriving DecidableEq, Repr

/-- Committed contents of the three tables the statements touch.  Rows of
`users` are `User` values: the columns `findUserByEmailQuery` selects. -/
structure DB where
  company : List CompanyRow
  users : List User
  userCompany : List UserCompanyRow
  deriving DecidableEq, Repr

/-- Identifiers the store generates for inserted rows (the `Id`/`ID` columns are
not supplied by the statement). -/
structure IdGen where
  companyId : DB → String
  userId : DB → String

/-- Value of a scalar subquery `(SELECT col FROM t)`: `NULL` on an empty result,
the value of the single row otherwise. -/
def scalarSubquery (rows : List String) : Option String :=
  rows.head?

/-- Semantics of the statement `createUserQuery` with parameters `$1 .. $5`,
run on the snapshot `db`.  It returns the tables after the statement and the
number of rows inserted by the outer `INSERT` (what `RowsAffected` counts).

* `new_company`: inserts `($5)` into `company` unless a row with `Name = $5`
  exists, and returns the inserted rows;
* `new_user`: inserts `($1, $2, $3, $4)` into `users` and returns the row;
* the outer statement inserts one row into `USER_COMPANY` whose columns are the
  two scalar subqueries over `new_company` and `new_user`. -/
def createUserQuery (g : IdGen) (db : DB) (p1 p2 p3 p4 p5 : String) : DB × Int :=
  let new_company : List CompanyRow :=
    if db.company.any (fun c => c.Name == p5) then []
    else [{ Id := g.companyId db, Name := p5 }]
  let new_user : List User :=
    [{ ID := g.userId db, Firstname := p1, Lastname := p2, Email := p3, Password := p4 }]
  let inserted : List UserCompanyRow :=
    [{ CompanyId := scalarSubquery (new_company.map (fun c => c.Id)),
       UserId := scalarSubquery (new_user.map (fun r => r.ID)) }]
  ({ company := db.company ++ new_company,
     users := db.users ++ new_user,
     userCompany := db.userCompany ++ inserted },
   (inserted.length : Int))

/-- Outcomes of the store driver during one call of `CreateUser`: the error (if
any) of `db.BeginTx`, `tx.Exec` and `tx.Commit`, and the pair returned by
`res.RowsAffected()`. -/
structure TxOutcomes where
  beginTx : Option GoError
  exec : Option GoError
  commit : Option GoError
  rowsAffected : Int × Option GoError

/-- An open or finished transaction: the uncommitted tables and whether the
transaction has been committed or rolled back. -/
structure Tx where
  pending : DB
  done : Bool
  deriving DecidableEq, Repr

/-- Go `tx.Rollback()` seen from the committed store `store`: an unfinished
transaction is discarded, a finished one yields `sql.ErrTxDone`; the committed
tables are not touched in either case. -/
def Tx.Rollback (tx : Tx) (store : DB) : DB × Option GoError :=
  if tx.done then (store, some .sqlErrTxDone) else (store, none)

/-- The deferred function of `CreateUser`: roll back when the variable `err`
is non-nil at the time of return. -/
def deferredRollback (err : Option GoError) (tx : Tx) (store : DB) : DB :=
  match err with
  | some _ => (tx.Rollback store).1
  | none => store

/-- Go `UserSession.CreateUser`, run against the committed store `db`.  Returns
the error handed to the caller and the committed store afterwards. -/
def CreateUser (o : TxOutcomes) (g : IdGen) (db : DB) (signup : Signup) :
    Option GoError × DB :=
  match o.beginTx with
  | some err => (some err, db)
  | none =>
    let tx : Tx := { pending := db, done := false }
    match o.exec with
    | some err => (some err, deferredRollback (some err) tx db)
    | none =>
      let res := createUserQuery g tx.pending signup.User.Firstname signup.User.Lastname
        signup.User.Email signup.User.Password signup.Company.Name
      let tx : Tx := { pending := res.1, done := false }
      match o.commit with
      | some err => (some err, deferredRollback (some err) { tx with done := true } db)
      | none =>
        let store := tx.pending
        let tx : Tx := { tx with done := true }
        match o.rowsAffected with
        | (_, some err) => (some err, deferredRollback (some err) tx store)
        | (nrows, none) =>
          if nrows == 0 then
            (some (.errorsNew "0 rows affected"), deferredRollback none tx store)
          else
            (none, deferredRollback none tx store)

/-- Go `findUserByEmail`: the first row of `users` with the given email, or
`sql.ErrNoRows`; `beginTx` is the error (if any) of `db.BeginTx`. -/
def findUserByEmail (beginTx : Option GoError) (db : DB) (email : String) :
    User × Option GoError :=
  match beginTx with
  | some err => (User.zero, some err)
  | none =>
    match db.users.find? (fun r => r.Email == email) with
    | some row => (row, none)
    | none => (User.zero, some .sqlErrNoRows)

/-- Collaborators of `LoginUser`. -/
structure LoginEnv where
  /-- Error (if any) of `db.BeginTx` inside `findUserByEmail`. -/
  beginTx : Option GoError
  /-- The function `bcrypt.CompareHashAndPassword(hashedPassword, password)`. -/
  CompareHashAndPassword : String → String → Option GoError
  /-- The function `utils.NewToken(expiresAt, id, key)`. -/
  NewToken : Time → String → String → String × Option GoError
  /-- The value of `time.Now()`. -/
  now : Time

/-- Result of `LoginUser`: the returned pair and the session the receiver points
to after the call. -/
structure LoginResult where
  resp : Response
  err : Option GoError
  session : UserSession
  deriving DecidableEq, Repr

/-- Go `(*UserSession).LoginUser`. -/
def LoginUser (env : LoginEnv) (u : UserSession) (db : DB) (userEmail password : String) :
    LoginResult :=
  let resp := Response.zero
  match findUserByEmail env.beginTx db userEmail with
  | (_, some err) => { resp := resp, err := some err, session := u }
  | (existingUser, none) =>
    let errf := env.CompareHashAndPassword existingUser.Password password
    if errf = some .bcryptErrMismatchedHashAndPassword then
      { resp := { resp with
                  Message := "Either the user does not exists or the password is incorrect" },
        err := some (.errorsNew "passwords do not match"),
        session := u }
    else
      let expiresAt := (env.now.Local).Add (Minute * 30)
      match env.NewToken expiresAt existingUser.ID "secret" with
      | (_, some err) =>
        { resp := { resp with
                    Message := "Either the user does not exists or the password is incorrect" },
          err := some err,
          session := u }
      | (tokenString, none) =>
        { resp := { resp with
                    Status := false,
                    Message := "logged in",
                    Token := tokenString,
                    ExpiresAt := expiresAt },
          err := none,
          session := { u with ID := existingUser.ID } }

/-! ## Sample data -/

/-- A stored user whose `Password` column holds text that is not a bcrypt hash
(`CreateUser` stores `signup.Password` as it receives it). -/
def alice : User :=
  { ID := "u1", Firstname := "Alice", Lastname := "A", Email := "alice@example.com",
    Password := "hunter2" }

/-- A store with one company, one user and their association. -/
def db1 : DB :=
  { company := [{ Id := "c1", Name := "Acme" }],
    users := [alice],
    userCompany := [{ CompanyId := some "c1", UserId := some "u1" }] }

/-- A signup for a new user of the existing company `Acme`. -/
def bobSignup : Signup :=
  { User := { ID := "", Firstname := "Bob", Lastname := "B", Email := "bob@example.com",
              Password := "$2a$10$hash" },
    Company := { Name := "Acme" } }

/-- Identifiers handed out by the store in the samples. -/
def gen1 : IdGen := { companyId := fun _ => "c2", userId := fun _ => "u2" }

/-- A token issuer that always succeeds. -/
def tokenOk (_ : Time) (id : String) (_ : String) : String × Option GoError :=
  ("token-for-" ++ id, none)

/-- A token issuer that always fails. -/
def tokenFail (_ : Time) (_ : String) (_ : String) : String × Option GoError :=
  ("", some (.external "signing failed"))

/-- A clock reading. -/
def noon : Time := { nanos := 1000, loc := .UTC }

/-- Verification accepts the password. -/
def envAccept : LoginEnv :=
  { beginTx := none, CompareHashAndPassword := fun _ _ => none, NewToken := tokenOk,
    now := noon }

/-- A stored user whose `Password` column holds a well-formed bcrypt hash
(60 bytes, version `2a`, cost 12) of the password "abc123xyz". -/
def carol : User :=
  { ID := "u7", Firstname := "Carol", Lastname := "C", Email := "carol@example.com",
    Password := "$2a$12$R9h/cIPz0gi.URNNX3kh2OPST9/PgBkqquzi.Ss7KIUgO2t0jWMUW" }

/-- A store whose only user is `carol`. -/
def db2 : DB :=
  { company := [{ Id := "c1", Name := "Acme" }],
    users := [carol],
    userCompany := [{ CompanyId := some "c1", UserId := some "u7" }] }

/-- The store `db2` without any user row. -/
def db2NoUsers : DB := { db2 with users := [] }

/-- Verification as `bcrypt.CompareHashAndPassword` answers on the stored values
of the samples: a stored value shorter than 59 bytes is refused with
`ErrHashTooShort`; the hash of `carol` accepts "abc123xyz" and answers
`ErrMismatchedHashAndPassword` for another password. -/
def envBcrypt : LoginEnv :=
  { beginTx := none,
    CompareHashAndPassword := fun hashed password =>
      if hashed.utf8ByteSize < 59 then some .bcryptErrHashTooShort
      else if hashed = carol.Password ∧ password = "abc123xyz" then none
      else some .bcryptErrMismatchedHashAndPassword,
    NewToken := tokenOk, now := noon }

/-- Verification as `bcrypt.CompareHashAndPassword` starts: a stored value shorter
than 59 bytes is refused with `ErrHashTooShort` before any comparison. -/
def envShortHash : LoginEnv :=
  { beginTx := none,
    CompareHashAndPassword := fun hashed _ =>
      if hashed.utf8ByteSize < 59 then some .bcryptErrHashTooShort
      else some .bcryptErrMismatchedHashAndPassword,
    NewToken := tokenOk, now := noon }

/-- Verification accepts, token issuance fails. -/
def envTokenFail : LoginEnv :=
  { beginTx := none, CompareHashAndPassword := fun _ _ => none, NewToken := tokenFail,
    now := noon }

/-- A session before login. -/
def session0 : UserSession := { ID := "", JwtSecret := "k" }

/-- Store outcomes: every operation succeeds and one row is reported. -/
def outcomesOk : TxOutcomes :=
  { beginTx := none, exec := none, commit := none, rowsAffected := (1, none) }

/-- Store outcomes: every operation succeeds and zero rows are reported. -/
def outcomesZeroRows : TxOutcomes :=
  { beginTx := none, exec := none, commit := none, rowsAffected := (0, none) }

/-- Store outcomes: `Exec` and `Commit` succeed, `RowsAffected` fails. -/
def outcomesRowsError : TxOutcomes :=
  { beginTx := none, exec := none, commit := none,
    rowsAffected := (0, some (.external "no RowsAffected available")) }

/-- The `users` row the statement inserts for `bobSignup`. -/
def bobRow : User :=
  { ID := "u2", Firstname := "Bob", Lastname := "B", Email := "bob@example.com",
    Password := "$2a$10$hash" }

/-! ## Shared lemmas about `LoginUser` -/

/-- The message both failure branches after the lookup put into the Response. -/
def genericFailureMessage : String :=
  "Either the user does not exists or the password is incorrect"

/-- The expiry `LoginUser` computes at clock reading `now`. -/
def loginExpiry (now : Time) : Time := (now.Local).Add (Minute * 30)

/-- Shape of a failed `LoginUser`: the Response is the zero Response up to its
`Message`, and the session is the one passed in. -/
theorem LoginUser_error_shape (env : LoginEnv) (u : UserSession) (db : DB)
    (userEmail password : String)
    (h : (LoginUser env u db userEmail password).err ≠ none) :
    (∃ msg, (LoginUser env u db userEmail password).resp =
        { Response.zero with Message := msg }) ∧
      (LoginUser env u db userEmail password).session = u := by
  unfold LoginUser at h ⊢
  rcases hf : findUserByEmail env.beginTx db userEmail with ⟨usr, _ | e⟩
  · simp only [hf] at h ⊢
    split_ifs with hm
    · exact ⟨⟨_, rfl⟩, rfl⟩
    · rw [if_neg hm] at h
      rcases ht : env.NewToken ((env.now.Local).Add (Minute * 30)) usr.ID "secret"
        with ⟨tok, _ | e⟩
      · simp [ht] at h
      · exact ⟨⟨_, rfl⟩, rfl⟩
  · exact ⟨⟨"", rfl⟩, rfl⟩

/-- Shape of a successful `LoginUser`: the lookup found a user, the issuer was
run on the computed expiry, that user's ID and the literal key and returned the
token without error, and the Response and session are built from these. -/
theorem LoginUser_success_shape (env : LoginEnv) (u : UserSession) (db : DB)
    (userEmail password : String)
    (h : (LoginUser env u db userEmail password).err = none) :
    ∃ existingUser tokenString,
      findUserByEmail env.beginTx db userEmail = (existingUser, none) ∧
      env.CompareHashAndPassword existingUser.Password password ≠
        some .bcryptErrMismatchedHashAndPassword ∧
      env.NewToken (loginExpiry env.now) existingUser.ID "secret" = (tokenString, none) ∧
      (LoginUser env u db userEmail password).resp =
        { Status := false, Message := "logged in", Token := tokenString,
          ExpiresAt := loginExpiry env.now, User := User.zero } ∧
      (LoginUser env u db userEmail password).session = { u with ID := existingUser.ID } := by
  unfold LoginUser at h ⊢
  rcases hf : findUserByEmail env.beginTx db userEmail with ⟨usr, _ | e⟩
  · simp only [hf] at h ⊢
    by_cases hm : env.CompareHashAndPassword usr.Password password =
        some .bcryptErrMismatchedHashAndPassword
    · simp [hm] at h
    · rw [if_neg hm] at h ⊢
      rcases ht : env.NewToken ((env.now.Local).Add (Minute * 30)) usr.ID "secret"
        with ⟨tok, _ | e⟩
      · exact ⟨usr, tok, rfl, hm, ht, by simp [ht, loginExpiry, Response.zero], by simp [ht]⟩
      · simp [ht] at h
  · simp [hf] at h

/-! ## Properties of `LoginUser` -/

/-- C1: at a login whose password the verification accepts and whose token is
issued, `LoginUser` returns a nil error, the message "logged in" and the issued
token, but the `Status` flag of the Response is `false`. -/
theorem C1_LoginUser_success_status_false :
    envAccept.CompareHashAndPassword alice.Password "hunter2" = none ∧
      envAccept.NewToken (loginExpiry noon) alice.ID "secret" = ("token-for-u1", none) ∧
      (LoginUser envAccept session0 db1 "alice@example.com" "hunter2").err = none ∧
      (LoginUser envAccept session0 db1 "alice@example.com" "hunter2").resp.Message =
        "logged in" ∧
      (LoginUser envAccept session0 db1 "alice@example.com" "hunter2").resp.Token =
        "token-for-u1" ∧
      (LoginUser envAccept session0 db1 "alice@example.com" "hunter2").resp.Status = false := by
  decide

/-- The `Status` flag of the Response is `false` after every call of `LoginUser`. -/
theorem LoginUser_status_always_false (env : LoginEnv) (u : UserSession) (db : DB)
    (userEmail password : String) :
    (LoginUser env u db userEmail password).resp.Status = false := by
  by_cases h : (LoginUser env u db userEmail password).err = none
  · obtain ⟨_, _, _, _, _, hr, _⟩ := LoginUser_success_shape env u db userEmail password h
    rw [hr]
  · obtain ⟨⟨_, hr⟩, _⟩ := LoginUser_error_shape env u db userEmail password h
    rw [hr]
    rfl

/-- C2: the stored password of `alice` is refused by the verification with
`ErrHashTooShort`, an error other than the mismatch error, and `LoginUser`
nevertheless returns a nil error and a non-empty token. -/
theorem C2_LoginUser_token_despite_verification_error :
    envShortHash.CompareHashAndPassword alice.Password "wrong" =
        some .bcryptErrHashTooShort ∧
      (LoginUser envShortHash session0 db1 "alice@example.com" "wrong").err = none ∧
      (LoginUser envShortHash session0 db1 "alice@example.com" "wrong").resp.Token =
        "token-for-u1" ∧
      (LoginUser envShortHash session0 db1 "alice@example.com" "wrong").resp.Token ≠ "" := by
  decide

/-- The only verification error that stops `LoginUser` is the mismatch error:
when the lookup finds a user, the verification returns anything else and the
issuer succeeds, the login succeeds with the issued token. -/
theorem LoginUser_verification_error_ignored (env : LoginEnv) (u : UserSession) (db : DB)
    (userEmail password : String) (existingUser : User) (tokenString : String)
    (hfind : findUserByEmail env.beginTx db userEmail = (existingUser, none))
    (hverify : env.CompareHashAndPassword existingUser.Password password ≠
      some .bcryptErrMismatchedHashAndPassword)
    (hissue : env.NewToken (loginExpiry env.now) existingUser.ID "secret" =
      (tokenString, none)) :
    (LoginUser env u db userEmail password).err = none ∧
      (LoginUser env u db userEmail password).resp.Token = tokenString := by
  unfold loginExpiry at hissue
  unfold LoginUser
  simp [hfind, hverify, hissue]

/-- When the lookup finds no row, `LoginUser` returns the zero Response (empty
`Message`) and `sql.ErrNoRows`; when the user exists and the verification
reports a mismatch, it returns the generic message and the error "passwords do
not match". -/
theorem LoginUser_lookup_failure_vs_mismatch (env : LoginEnv) (u : UserSession)
    (dbAbsent dbPresent : DB) (userEmail password : String) (existingUser : User)
    (hbegin : env.beginTx = none)
    (habsent : dbAbsent.users.find? (fun r => r.Email == userEmail) = none)
    (hpresent : dbPresent.users.find? (fun r => r.Email == userEmail) = some existingUser)
    (hmismatch : env.CompareHashAndPassword existingUser.Password password =
      some .bcryptErrMismatchedHashAndPassword) :
    LoginUser env u dbAbsent userEmail password =
        { resp := Response.zero, err := some .sqlErrNoRows, session := u } ∧
      LoginUser env u dbPresent userEmail password =
        { resp := { Response.zero with Message := genericFailureMessage },
          err := some (.errorsNew "passwords do not match"), session := u } := by
  constructor
  · unfold LoginUser findUserByEmail
    simp [hbegin, habsent]
  · unfold LoginUser findUserByEmail
    simp [hbegin, hpresent, hmismatch, genericFailureMessage]

/-- C3: for email "carol@example.com" and password "wrong", the run on a store
without that user returns an empty Response message and the error "sql: no rows
in result set", while the run on the store that holds `carol` (whose hash does
not match "wrong") returns the generic message and the error "passwords do not
match": neither the Response messages nor the error messages are identical. -/
theorem C3_LoginUser_messages_differ :
    db2NoUsers.users.find? (fun r => r.Email == "carol@example.com") = none ∧
      findUserByEmail envBcrypt.beginTx db2 "carol@example.com" = (carol, none) ∧
      envBcrypt.CompareHashAndPassword carol.Password "wrong" =
        some .bcryptErrMismatchedHashAndPassword ∧
      (LoginUser envBcrypt session0 db2NoUsers "carol@example.com" "wrong").resp.Message =
        "" ∧
      (LoginUser envBcrypt session0 db2NoUsers "carol@example.com" "wrong").err.map
          GoError.Error = some "sql: no rows in result set" ∧
      (LoginUser envBcrypt session0 db2 "carol@example.com" "wrong").resp.Message =
        "Either the user does not exists or the password is incorrect" ∧
      (LoginUser envBcrypt session0 db2 "carol@example.com" "wrong").err.map
          GoError.Error = some "passwords do not match" ∧
      (LoginUser envBcrypt session0 db2NoUsers "carol@example.com" "wrong").resp.Message ≠
        (LoginUser envBcrypt session0 db2 "carol@example.com" "wrong").resp.Message ∧
      (LoginUser envBcrypt session0 db2NoUsers "carol@example.com" "wrong").err.map
          GoError.Error ≠
        (LoginUser envBcrypt session0 db2 "carol@example.com" "wrong").err.map
          GoError.Error := by
  decide

/-- C5: whenever `LoginUser` returns a non-nil error, the Response it returns
has an empty `Token` and the zero `ExpiresAt`. -/
theorem C5_LoginUser_error_no_token (env : LoginEnv) (u : UserSession) (db : DB)
    (userEmail password : String)
    (h : (LoginUser env u db userEmail password).err ≠ none) :
    (LoginUser env u db userEmail password).resp.Token = "" ∧
      (LoginUser env u db userEmail password).resp.ExpiresAt = Time.zero := by
  obtain ⟨⟨msg, hr⟩, _⟩ := LoginUser_error_shape env u db userEmail password h
  rw [hr]
  exact ⟨rfl, rfl⟩

/-- Witness of `C5_LoginUser_error_no_token`: a login whose token issuance fails. -/
theorem C5_LoginUser_error_no_token_witness :
    (LoginUser envTokenFail session0 db1 "alice@example.com" "hunter2").err ≠ none ∧
      (LoginUser envTokenFail session0 db1 "alice@example.com" "hunter2").resp.Token = "" ∧
      (LoginUser envTokenFail session0 db1 "alice@example.com" "hunter2").resp.ExpiresAt =
        Time.zero :=
  ⟨by decide,
    C5_LoginUser_error_no_token envTokenFail session0 db1 "alice@example.com" "hunter2"
      (by decide)⟩

/-- C6: on a successful `LoginUser` at clock reading `env.now`, the token in the
Response is what the issuer returns for the expiry thirty minutes after
`env.now`, the ID of the user the lookup found and the key; `ExpiresAt` is that
same expiry, which is also `now + cookieExpireTime`. -/
theorem C6_LoginUser_expiry_and_subject (env : LoginEnv) (u : UserSession) (db : DB)
    (userEmail password : String)
    (h : (LoginUser env u db userEmail password).err = none) :
    ∃ existingUser,
      findUserByEmail env.beginTx db userEmail = (existingUser, none) ∧
      env.NewToken { nanos := env.now.nanos + 30 * (60 * 1000000000), loc := .Local }
          existingUser.ID "secret" =
        ((LoginUser env u db userEmail password).resp.Token, none) ∧
      (LoginUser env u db userEmail password).resp.ExpiresAt =
        { nanos := env.now.nanos + 30 * (60 * 1000000000), loc := .Local } ∧
      (LoginUser env u db userEmail password).resp.ExpiresAt =
        (env.now.Local).Add cookieExpireTime := by
  obtain ⟨usr, tok, hf, _, ht, hr, _⟩ := LoginUser_success_shape env u db userEmail password h
  have he : loginExpiry env.now =
      { nanos := env.now.nanos + 30 * (60 * 1000000000), loc := .Local } := by
    simp [loginExpiry, Time.Add, Time.Local, Minute, mul_comm]
  have hc : (env.now.Local).Add cookieExpireTime = loginExpiry env.now := by
    simp [loginExpiry, cookieExpireTime, mul_comm]
  refine ⟨usr, hf, ?_, ?_, ?_⟩
  · rw [hr, ← he]
    exact ht
  · rw [hr, ← he]
  · rw [hr, hc]

/-- Witness of `C6_LoginUser_expiry_and_subject`. -/
theorem C6_LoginUser_expiry_and_subject_witness :
    (LoginUser envAccept session0 db1 "alice@example.com" "hunter2").err = none ∧
      ∃ existingUser,
        findUserByEmail envAccept.beginTx db1 "alice@example.com" = (existingUser, none) ∧
        envAccept.NewToken
            { nanos := envAccept.now.nanos + 30 * (60 * 1000000000), loc := .Local }
            existingUser.ID "secret" =
          ((LoginUser envAccept session0 db1 "alice@example.com" "hunter2").resp.Token,
            none) ∧
        (LoginUser envAccept session0 db1 "alice@example.com" "hunter2").resp.ExpiresAt =
          { nanos := envAccept.now.nanos + 30 * (60 * 1000000000), loc := .Local } ∧
        (LoginUser envAccept session0 db1 "alice@example.com" "hunter2").resp.ExpiresAt =
          (envAccept.now.Local).Add cookieExpireTime :=
  ⟨by decide,
    C6_LoginUser_expiry_and_subject envAccept session0 db1 "alice@example.com" "hunter2"
      (by decide)⟩

/-- C7, as stated, fails: the login of `alice` succeeds and the lookup finds
her row, yet the embedded `User` of the Response does not carry her fields. -/
theorem C7_response_user_not_copied :
    (LoginUser envAccept session0 db1 "alice@example.com" "hunter2").err = none ∧
      findUserByEmail envAccept.beginTx db1 "alice@example.com" = (alice, none) ∧
      ¬ ((LoginUser envAccept session0 db1 "alice@example.com" "hunter2").resp.User.ID =
            alice.ID ∧
          (LoginUser envAccept session0 db1 "alice@example.com" "hunter2").resp.User.Firstname =
            alice.Firstname ∧
          (LoginUser envAccept session0 db1 "alice@example.com" "hunter2").resp.User.Lastname =
            alice.Lastname ∧
          (LoginUser envAccept session0 db1 "alice@example.com" "hunter2").resp.User.Email =
            alice.Email ∧
          (LoginUser envAccept session0 db1 "alice@example.com" "hunter2").resp.User.Password =
            "") := by
  decide

/-- C7, amended: on a successful `LoginUser` the embedded `User` of the Response
is the zero `User`: its `Password` is the empty string, and so are its `ID`,
`Firstname`, `Lastname` and `Email`. -/
theorem C7_LoginUser_response_user_zero (env : LoginEnv) (u : UserSession) (db : DB)
    (userEmail password : String)
    (h : (LoginUser env u db userEmail password).err = none) :
    (LoginUser env u db userEmail password).resp.User.Password = "" ∧
      (LoginUser env u db userEmail password).resp.User.ID = "" ∧
      (LoginUser env u db userEmail password).resp.User.Firstname = "" ∧
      (LoginUser env u db userEmail password).resp.User.Lastname = "" ∧
      (LoginUser env u db userEmail password).resp.User.Email = "" := by
  obtain ⟨_, _, _, _, _, hr, _⟩ := LoginUser_success_shape env u db userEmail password h
  rw [hr]
  exact ⟨rfl, rfl, rfl, rfl, rfl⟩

/-- Witness of `C7_LoginUser_response_user_zero`. -/
theorem C7_LoginUser_response_user_zero_witness :
    (LoginUser envAccept session0 db1 "alice@example.com" "hunter2").err = none ∧
      (LoginUser envAccept session0 db1 "alice@example.com" "hunter2").resp.User.Password =
        "" ∧
      (LoginUser envAccept session0 db1 "alice@example.com" "hunter2").resp.User.ID = "" ∧
      (LoginUser envAccept session0 db1 "alice@example.com" "hunter2").resp.User.Firstname =
        "" ∧
      (LoginUser envAccept session0 db1 "alice@example.com" "hunter2").resp.User.Lastname =
        "" ∧
      (LoginUser envAccept session0 db1 "alice@example.com" "hunter2").resp.User.Email = "" :=
  ⟨by decide,
    C7_LoginUser_response_user_zero envAccept session0 db1 "alice@example.com" "hunter2"
      (by decide)⟩

/-- C9: after a successful `LoginUser` the session's `ID` is the ID of the user
the lookup found; after a failed one the session's `ID` is what it was; the
session's `JwtSecret` is what it was in both cases. -/
theorem C9_LoginUser_session_frame (env : LoginEnv) (u : UserSession) (db : DB)
    (userEmail password : String) :
    ((LoginUser env u db userEmail password).err = none →
        ∃ existingUser,
          findUserByEmail env.beginTx db userEmail = (existingUser, none) ∧
          (LoginUser env u db userEmail password).session.ID = existingUser.ID) ∧
      ((LoginUser env u db userEmail password).err ≠ none →
        (LoginUser env u db userEmail password).session.ID = u.ID) ∧
      (LoginUser env u db userEmail password).session.JwtSecret = u.JwtSecret := by
  refine ⟨?_, ?_, ?_⟩
  · intro h
    obtain ⟨usr, _, hf, _, _, _, hs⟩ := LoginUser_success_shape env u db userEmail password h
    exact ⟨usr, hf, by rw [hs]⟩
  · intro h
    rw [(LoginUser_error_shape env u db userEmail password h).2]
  · by_cases h : (LoginUser env u db userEmail password).err = none
    · obtain ⟨_, _, _, _, _, _, hs⟩ := LoginUser_success_shape env u db userEmail password h
      rw [hs]
    · rw [(LoginUser_error_shape env u db userEmail password h).2]

/-- Witness of `C9_LoginUser_session_frame`: a successful login moves the
session's `ID` from the empty string to "u1", a failed one leaves it. -/
theorem C9_LoginUser_session_frame_witness :
    (∃ existingUser,
        findUserByEmail envAccept.beginTx db1 "alice@example.com" = (existingUser, none) ∧
        (LoginUser envAccept session0 db1 "alice@example.com" "hunter2").session.ID =
          existingUser.ID) ∧
      (LoginUser envAccept session0 db1 "alice@example.com" "hunter2").session.ID = "u1" ∧
      (LoginUser envBcrypt session0 db2 "carol@example.com" "wrong").session.ID =
        session0.ID ∧
      (LoginUser envBcrypt session0 db2 "carol@example.com" "wrong").session.JwtSecret =
        session0.JwtSecret :=
  ⟨(C9_LoginUser_session_frame envAccept session0 db1 "alice@example.com" "hunter2").1
      (by decide),
    by decide,
    (C9_LoginUser_session_frame envBcrypt session0 db2 "carol@example.com" "wrong").2.1
      (by decide),
    (C9_LoginUser_session_frame envBcrypt session0 db2 "carol@example.com" "wrong").2.2⟩

/-! ## Properties of `createUserQuery` and `CreateUser` -/

/-- When a company named `p5` exists, the statement leaves `company` as it is,
adds one `users` row and one `USER_COMPANY` row, and the `CompanyId` of that row
is `NULL`: the scalar subquery over `new_company` has no row to return. -/
theorem createUserQuery_existing_company (g : IdGen) (db : DB) (p1 p2 p3 p4 p5 : String)
    (h : db.company.any (fun c => c.Name == p5) = true) :
    createUserQuery g db p1 p2 p3 p4 p5 =
      ({ company := db.company,
         users := db.users ++
           [{ ID := g.userId db, Firstname := p1, Lastname := p2, Email := p3,
              Password := p4 }],
         userCompany := db.userCompany ++
           [{ CompanyId := none, UserId := some (g.userId db) }] }, 1) := by
  simp [createUserQuery, h, scalarSubquery]

/-- When no company named `p5` exists, the statement adds one `company` row, one
`users` row and one `USER_COMPANY` row that links the two new ids. -/
theorem createUserQuery_fresh_company (g : IdGen) (db : DB) (p1 p2 p3 p4 p5 : String)
    (h : db.company.any (fun c => c.Name == p5) = false) :
    createUserQuery g db p1 p2 p3 p4 p5 =
      ({ company := db.company ++ [{ Id := g.companyId db, Name := p5 }],
         users := db.users ++
           [{ ID := g.userId db, Firstname := p1, Lastname := p2, Email := p3,
              Password := p4 }],
         userCompany := db.userCompany ++
           [{ CompanyId := some (g.companyId db), UserId := some (g.userId db) }] }, 1) := by
  simp [createUserQuery, h, scalarSubquery]

/-- C8: company "Acme" exists with id "c1"; the statement run for a signup to
"Acme" adds one user row and one association row and no company row, and the
association row carries `CompanyId = NULL`, not "c1". -/
theorem C8_createUserQuery_existing_company_null :
    db1.company = [{ Id := "c1", Name := "Acme" }] ∧
      (createUserQuery gen1 db1 "Bob" "B" "bob@example.com" "$2a$10$hash" "Acme").1.company =
        db1.company ∧
      (createUserQuery gen1 db1 "Bob" "B" "bob@example.com" "$2a$10$hash" "Acme").1.users =
        db1.users ++ [bobRow] ∧
      (createUserQuery gen1 db1 "Bob" "B" "bob@example.com" "$2a$10$hash" "Acme").1.userCompany =
        db1.userCompany ++ [{ CompanyId := none, UserId := some "u2" }] ∧
      (createUserQuery gen1 db1 "Bob" "B" "bob@example.com" "$2a$10$hash"
          "Acme").1.userCompany ≠
        db1.userCompany ++ [{ CompanyId := some "c1", UserId := some "u2" }] := by
  decide

/-- A failure of `BeginTx`, `Exec` or `Commit` leaves the committed store as it
was. -/
theorem CreateUser_store_unchanged_before_commit (o : TxOutcomes) (g : IdGen) (db : DB)
    (signup : Signup)
    (h : o.beginTx ≠ none ∨ o.exec ≠ none ∨ o.commit ≠ none) :
    (CreateUser o g db signup).2 = db := by
  unfold CreateUser
  rcases hb : o.beginTx with _ | e
  · rcases he : o.exec with _ | e
    · rcases hc : o.commit with _ | e
      · simp [hb, he, hc] at h
      · simp [deferredRollback, Tx.Rollback]
    · simp [deferredRollback, Tx.Rollback]
  · rfl

/-- Once `BeginTx`, `Exec` and `Commit` have succeeded, the committed store is the
result of the statement, whatever `RowsAffected` returns. -/
theorem CreateUser_store_after_commit (o : TxOutcomes) (g : IdGen) (db : DB)
    (signup : Signup) (hb : o.beginTx = none) (he : o.exec = none) (hc : o.commit = none) :
    (CreateUser o g db signup).2 =
      (createUserQuery g db signup.User.Firstname signup.User.Lastname signup.User.Email
        signup.User.Password signup.Company.Name).1 := by
  unfold CreateUser
  rcases hr : o.rowsAffected with ⟨n, _ | e⟩
  · by_cases hn : n = 0 <;> simp [hb, he, hc, hr, hn, deferredRollback]
  · simp [hb, he, hc, hr, deferredRollback, Tx.Rollback]

/-- C4: `Exec` and `Commit` succeed and `RowsAffected` reports 0 (or fails);
`CreateUser` returns a non-nil error although the store afterwards differs from
the store before: the new user row and its association row are committed. -/
theorem C4_CreateUser_error_after_commit :
    (CreateUser outcomesZeroRows gen1 db1 bobSignup).1 =
        some (.errorsNew "0 rows affected") ∧
      (CreateUser outcomesZeroRows gen1 db1 bobSignup).2 ≠ db1 ∧
      (CreateUser outcomesZeroRows gen1 db1 bobSignup).2.users = db1.users ++ [bobRow] ∧
      (CreateUser outcomesZeroRows gen1 db1 bobSignup).2.userCompany =
        db1.userCompany ++ [{ CompanyId := none, UserId := some "u2" }] ∧
      (CreateUser outcomesRowsError gen1 db1 bobSignup).1 =
        some (.external "no RowsAffected available") ∧
      (CreateUser outcomesRowsError gen1 db1 bobSignup).2 ≠ db1 := by
  decide

/-- C10: `CreateUser` returns nil exactly when `BeginTx`, `Exec`, `Commit` and
`RowsAffected` succeed and the reported count is not zero; a reported count of
zero gives the error "0 rows affected"; an error of `BeginTx`, `Exec`, `Commit`
or `RowsAffected` is the error returned. -/
theorem C10_CreateUser_error_iff (o : TxOutcomes) (g : IdGen) (db : DB) (signup : Signup) :
    ((CreateUser o g db signup).1 = none ↔
        (o.beginTx = none ∧ o.exec = none ∧ o.commit = none ∧ o.rowsAffected.2 = none ∧
          o.rowsAffected.1 ≠ 0)) ∧
      (o.beginTx = none → o.exec = none → o.commit = none → o.rowsAffected.2 = none →
        o.rowsAffected.1 = 0 →
        (CreateUser o g db signup).1 = some (.errorsNew "0 rows affected") ∧
          ((CreateUser o g db signup).1.map GoError.Error) = some "0 rows affected") ∧
      (∀ e, o.beginTx = some e → (CreateUser o g db signup).1 = some e) ∧
      (∀ e, o.beginTx = none → o.exec = some e → (CreateUser o g db signup).1 = some e) ∧
      (∀ e, o.beginTx = none → o.exec = none → o.commit = some e →
        (CreateUser o g db signup).1 = some e) ∧
      (∀ e, o.beginTx = none → o.exec = none → o.commit = none →
        o.rowsAffected.2 = some e → (CreateUser o g db signup).1 = some e) := by
  unfold CreateUser
  rcases hb : o.beginTx with _ | eb
  · rcases he : o.exec with _ | ee
    · rcases hc : o.commit with _ | ec
      · rcases hr : o.rowsAffected with ⟨n, _ | er⟩
        · by_cases hn : n = 0 <;> simp [hn, GoError.Error]
        · simp
      · simp
    · simp
  · simp

/-- Witness of `C10_CreateUser_error_iff`: the success case, the zero-rows case
and a failing `BeginTx`. -/
theorem C10_CreateUser_error_iff_witness :
    (CreateUser outcomesOk gen1 db1 bobSignup).1 = none ∧
      (CreateUser outcomesZeroRows gen1 db1 bobSignup).1 =
        some (.errorsNew "0 rows affected") ∧
      (CreateUser { outcomesOk with beginTx := some (.external "connection refused") }
        gen1 db1 bobSignup).1 = some (.external "connection refused") :=
  ⟨(C10_CreateUser_error_iff outcomesOk gen1 db1 bobSignup).1.2
      ⟨rfl, rfl, rfl, rfl, by decide⟩,
    ((C10_CreateUser_error_iff outcomesZeroRows gen1 db1 bobSignup).2.1
      rfl rfl rfl rfl rfl).1,
    (C10_CreateUser_error_iff { outcomesOk with beginTx := some (.external "connection refused") }
      gen1 db1 bobSignup).2.2.1 _ rfl⟩

end Creatix
